import Mathlib

/-!
Shallow embedding of the Laminar service-verification examples
(`examples/config.py` and `examples/05_verify_service.py`).

External effects (environment lookup, HTTP requests, the telemetry SDK,
exporter construction and flushing) are modelled as oracle values that the
embedded functions consume; each embedded function mirrors the control flow
of its Python source line by line.
-/

namespace Examples

/-- Python `str.strip()` on a list of characters: drop whitespace from the
front, then from the back (via reverse). -/
def pyStripList (l : List Char) : List Char :=
  (l.dropWhile Char.isWhitespace).rdropWhile Char.isWhitespace

/-- Python `str.strip()` (no arguments): remove leading and trailing
whitespace. -/
def pyStrip (s : String) : String :=
  ⟨pyStripList s.data⟩

/-- Python `os.environ.get(key, dflt)`: the environment is a partial map from
variable names to values; a set-but-empty variable is `some ""`, distinct
from an unset one (`none`). -/
def environGet (env : String → Option String) (key dflt : String) : String :=
  (env key).getD dflt

/-- `config.BASE_URL`: `os.environ.get("LAMINAR_BASE_URL", "https://laminar.orbitronai.com")`. -/
def BASE_URL (env : String → Option String) : String :=
  environGet env "LAMINAR_BASE_URL" "https://laminar.orbitronai.com"

/-- `config.OTLP_GRPC_URL`: `os.environ.get("LAMINAR_OTLP_GRPC_URL", "https://otlp-grpc.laminar.orbitronai.com:443")`. -/
def OTLP_GRPC_URL (env : String → Option String) : String :=
  environGet env "LAMINAR_OTLP_GRPC_URL" "https://otlp-grpc.laminar.orbitronai.com:443"

/-- `config.OTLP_HTTP_URL`: `os.environ.get("LAMINAR_OTLP_HTTP_URL", "https://otlp-http.laminar.orbitronai.com")`. -/
def OTLP_HTTP_URL (env : String → Option String) : String :=
  environGet env "LAMINAR_OTLP_HTTP_URL" "https://otlp-http.laminar.orbitronai.com"

/-- The remediation text `config.get_api_key` prints to stderr before
`sys.exit(1)` (the source wraps the key placeholder in single quotes, elided
here). -/
def remediationMsg : String :=
  "ERROR: LAMINAR_API_KEY is not set.\n  1. Go to https://laminar.orbitronai.com\n  2. Open your project -> Settings -> API Keys\n  3. export LAMINAR_API_KEY=<your-key>"

/-- Outcome of `config.get_api_key`: either `sys.exit(1)` after printing the
remediation message to stderr, or the resolved key. -/
inductive KeyResult where
  | exitOne (stderrMsg : String)
  | ok (key : String)
deriving DecidableEq, Repr

/-- `config.get_api_key`: `key = os.environ.get("LAMINAR_API_KEY", "").strip()`;
if the result is falsy (empty) print the remediation message and exit with
status 1, otherwise return the stripped key. -/
def get_api_key (env : String → Option String) : KeyResult :=
  let key := pyStrip (environGet env "LAMINAR_API_KEY" "")
  if key = "" then KeyResult.exitOne remediationMsg else KeyResult.ok key

/-- One printed check line: label, pass/fail, optional detail. -/
structure CheckResult where
  label : String
  passed : Bool
  detail : String
deriving DecidableEq, Repr

/-- `_check(label, ok, detail="")`: prints the status line and returns `ok`;
the printed line is modelled by the record itself. -/
def _check (label : String) (ok : Bool) (detail : String := "") : CheckResult :=
  ⟨label, ok, detail⟩

/-- Oracle for one HTTP request: either a response with a final
(post-redirect) status code, or a raised exception with its `str(exc)`. -/
inductive HttpOutcome where
  | resp (status : Nat)
  | exn (msg : String)
deriving DecidableEq, Repr

/-- `check_ui_reachable`: GET `BASE_URL/sign-in` following redirects; pass iff
the status code is 200, detail `HTTP <code>`; on exception fail with
`str(exc)` as detail. -/
def check_ui_reachable (o : HttpOutcome) : CheckResult :=
  match o with
  | HttpOutcome.resp code => _check "UI reachable" (code == 200) ("HTTP " ++ toString code)
  | HttpOutcome.exn msg => _check "UI reachable" false msg

/-- `check_otlp_http_reachable`: POST an empty protobuf body; pass iff the
status code is in `(200, 400, 401, 415)`; on exception fail with `str(exc)`. -/
def check_otlp_http_reachable (o : HttpOutcome) : CheckResult :=
  match o with
  | HttpOutcome.resp code =>
      _check "OTLP/HTTP endpoint" ([200, 400, 401, 415].contains code) ("HTTP " ++ toString code)
  | HttpOutcome.exn msg => _check "OTLP/HTTP endpoint" false msg

/-- `check_otlp_grpc_reachable`: POST over HTTP/2; any response at all counts
as success regardless of status; on exception fail with `str(exc)`. -/
def check_otlp_grpc_reachable (o : HttpOutcome) : CheckResult :=
  match o with
  | HttpOutcome.resp code =>
      _check "OTLP/gRPC endpoint (HTTP/2 :443)" true ("HTTP " ++ toString code)
  | HttpOutcome.exn msg => _check "OTLP/gRPC endpoint (HTTP/2 :443)" false msg

/-- Oracle for `check_sdk_export`'s body: either the SDK ran to completion and
`Laminar.flush()` reported the flag `flag` (the source discards this value),
or some statement inside the `try` raised with `str(exc)`. -/
inductive SdkOutcome where
  | flushed (flag : Bool)
  | exn (msg : String)
deriving DecidableEq, Repr

/-- `check_sdk_export`: initialize the SDK, run a traced dummy op, call
`Laminar.flush()`, then `return _check("lmnr SDK trace export", True)` — the
flush's result is not consulted; any exception yields a failed check. -/
def check_sdk_export (o : SdkOutcome) : CheckResult :=
  match o with
  | SdkOutcome.flushed _ => _check "lmnr SDK trace export" true
  | SdkOutcome.exn msg => _check "lmnr SDK trace export" false msg

/-- Oracle for `_export_and_check`'s `try` body:
`setupExn`: `Resource.create` / `TracerProvider` / processor wiring raised
(no pipeline constructed); `spanOrFlushExn`: the pipeline was constructed
but span creation or `force_flush` raised; `flushed flag`: `force_flush`
returned `flag`. -/
inductive ExportStep where
  | setupExn (msg : String)
  | spanOrFlushExn (msg : String)
  | flushed (flag : Bool)
deriving DecidableEq, Repr

/-- What one run of `_export_and_check` did: the recorded check line, whether
a `TracerProvider` pipeline was constructed, and whether
`provider.shutdown()` was invoked. -/
structure ExportRun where
  result : CheckResult
  pipelineConstructed : Bool
  shutdownInvoked : Bool
deriving DecidableEq, Repr

/-- `_export_and_check(label, exporter)`: build the pipeline, open one span,
`force_flush`, `shutdown`, then record the flush flag. `shutdown()` is the
statement after `force_flush` with no `finally`, so it runs only when the
flush returns; on any exception the `except` branch records a failed check
without shutting down. -/
def _export_and_check (label : String) (o : ExportStep) : ExportRun :=
  match o with
  | ExportStep.setupExn msg => ⟨_check label false msg, false, false⟩
  | ExportStep.spanOrFlushExn msg => ⟨_check label false msg, true, false⟩
  | ExportStep.flushed flag => ⟨_check label flag, true, true⟩

/-- Oracle for constructing an OTLP exporter (`GrpcExporter(...)` /
`HttpExporter(...)`): the constructor either returns or raises. -/
inductive ExporterConstruction where
  | ok
  | exn (msg : String)
deriving DecidableEq, Repr

/-- `check_grpc_export`: construct `GrpcExporter` (outside any `try`, so a
constructor exception propagates to the caller), then delegate to
`_export_and_check`. -/
def check_grpc_export (c : ExporterConstruction) (o : ExportStep) : Except String ExportRun :=
  match c with
  | ExporterConstruction.exn msg => Except.error msg
  | ExporterConstruction.ok => Except.ok (_export_and_check "OTLP/gRPC trace export" o)

/-- `check_http_export`: construct `HttpExporter` (outside any `try`, so a
constructor exception propagates to the caller), then delegate to
`_export_and_check`. -/
def check_http_export (c : ExporterConstruction) (o : ExportStep) : Except String ExportRun :=
  match c with
  | ExporterConstruction.exn msg => Except.error msg
  | ExporterConstruction.ok => Except.ok (_export_and_check "OTLP/HTTP trace export" o)

/-- All external behavior one run of `main` can observe: the environment and
one oracle per external call, in program order. -/
structure World where
  env : String → Option String
  ui : HttpOutcome
  otlpHttp : HttpOutcome
  otlpGrpc : HttpOutcome
  sdk : SdkOutcome
  grpcCons : ExporterConstruction
  grpcStep : ExportStep
  httpCons : ExporterConstruction
  httpStep : ExportStep

/-- Observable outcome of one run of `main`: the check lines recorded in
order, the process exit status (1 both for `sys.exit(1)` and for an uncaught
exception), whether `get_api_key` returned, the remediation text printed to
stderr (if any), and an uncaught exception escaping a probe (if any). -/
structure MainRun where
  results : List CheckResult
  exitCode : Nat
  credentialResolved : Bool
  remediationPrinted : Option String
  uncaught : Option String
deriving Repr

/-- `main`: resolve the key first (exiting with status 1 before any probe if
it is blank), then run the three connectivity checks and the three export
checks in order, appending each result; finally exit 0 if `all(results)`
else `sys.exit(1)`. An exception escaping `check_grpc_export` /
`check_http_export` aborts the run (Python exits with status 1 on an
uncaught exception), keeping only the results already recorded. -/
def main (w : World) : MainRun :=
  match get_api_key w.env with
  | KeyResult.exitOne msg =>
      { results := [], exitCode := 1, credentialResolved := false,
        remediationPrinted := some msg, uncaught := none }
  | KeyResult.ok _ =>
      let r1 := check_ui_reachable w.ui
      let r2 := check_otlp_http_reachable w.otlpHttp
      let r3 := check_otlp_grpc_reachable w.otlpGrpc
      let r4 := check_sdk_export w.sdk
      match check_grpc_export w.grpcCons w.grpcStep with
      | Except.error msg =>
          { results := [r1, r2, r3, r4], exitCode := 1, credentialResolved := true,
            remediationPrinted := none, uncaught := some msg }
      | Except.ok e5 =>
          match check_http_export w.httpCons w.httpStep with
          | Except.error msg =>
              { results := [r1, r2, r3, r4, e5.result], exitCode := 1,
                credentialResolved := true, remediationPrinted := none,
                uncaught := some msg }
          | Except.ok e6 =>
              let rs := [r1, r2, r3, r4, e5.result, e6.result]
              { results := rs,
                exitCode := if rs.all (fun r => r.passed) then 0 else 1,
                credentialResolved := true, remediationPrinted := none,
                uncaught := none }

/-- `true` iff the string's first character exists and is whitespace. -/
def leadingWS (s : String) : Bool :=
  ((s.data.head?).map Char.isWhitespace).getD false

/-- `true` iff the string's last character exists and is whitespace. -/
def trailingWS (s : String) : Bool :=
  ((s.data.getLast?).map Char.isWhitespace).getD false

/-- Environment with `LAMINAR_BASE_URL` set to the empty string and
everything else unset. -/
def envC3 : String → Option String :=
  fun k => if k = "LAMINAR_BASE_URL" then some "" else none

/-- Environment with every variable unset. -/
def envAllUnset : String → Option String := fun _ => none

/-- Environment with every variable set to the same test URL. -/
def envAllSet : String → Option String := fun _ => some "https://example.test"

/-- Environment whose API key value has padding whitespace. -/
def envC10 : String → Option String := fun _ => some "  sk-abc\n"

/-- A fully healthy world: key set, all probes succeed. -/
def wC1 : World :=
  { env := fun _ => some "key-123", ui := HttpOutcome.resp 200,
    otlpHttp := HttpOutcome.resp 401, otlpGrpc := HttpOutcome.resp 415,
    sdk := SdkOutcome.flushed true, grpcCons := ExporterConstruction.ok,
    grpcStep := ExportStep.flushed true, httpCons := ExporterConstruction.ok,
    httpStep := ExportStep.flushed true }

/-- A world whose API key is whitespace-only. -/
def wC2 : World :=
  { env := fun _ => some "   ", ui := HttpOutcome.resp 200,
    otlpHttp := HttpOutcome.resp 200, otlpGrpc := HttpOutcome.resp 200,
    sdk := SdkOutcome.flushed true, grpcCons := ExporterConstruction.ok,
    grpcStep := ExportStep.flushed true, httpCons := ExporterConstruction.ok,
    httpStep := ExportStep.flushed true }

/-- A world where the gRPC exporter's constructor raises. -/
def wC9 : World :=
  { env := fun _ => some "key-123", ui := HttpOutcome.resp 200,
    otlpHttp := HttpOutcome.resp 200, otlpGrpc := HttpOutcome.resp 200,
    sdk := SdkOutcome.flushed true,
    grpcCons := ExporterConstruction.exn "invalid endpoint",
    grpcStep := ExportStep.flushed true, httpCons := ExporterConstruction.ok,
    httpStep := ExportStep.flushed true }

/-- A fully healthy world (distinct copy for the ordering claim). -/
def wC9b : World :=
  { env := fun _ => some "key-456", ui := HttpOutcome.resp 200,
    otlpHttp := HttpOutcome.resp 200, otlpGrpc := HttpOutcome.resp 200,
    sdk := SdkOutcome.flushed true, grpcCons := ExporterConstruction.ok,
    grpcStep := ExportStep.flushed true, httpCons := ExporterConstruction.ok,
    httpStep := ExportStep.flushed true }

theorem head?_pyStripList (l : List Char) (c : Char)
    (h : (pyStripList l).head? = some c) : c.isWhitespace = false := by
  unfold pyStripList at h
  obtain ⟨t, ht⟩ := List.rdropWhile_prefix Char.isWhitespace (l.dropWhile Char.isWhitespace)
  have h2 : (l.dropWhile Char.isWhitespace).head? = some c := by
    rw [← ht]
    cases hps : (l.dropWhile Char.isWhitespace).rdropWhile Char.isWhitespace with
    | nil => rw [hps] at h; exact absurd h (by simp)
    | cons a u =>
      rw [hps] at h
      simp only [List.cons_append, List.head?_cons] at h ⊢
      exact h
  have h3 := List.head?_dropWhile_not Char.isWhitespace l
  rw [h2] at h3
  exact h3

theorem getLast?_pyStripList (l : List Char) (c : Char)
    (h : (pyStripList l).getLast? = some c) : c.isWhitespace = false := by
  unfold pyStripList at h
  have hne : (l.dropWhile Char.isWhitespace).rdropWhile Char.isWhitespace ≠ [] := by
    intro hnil
    rw [hnil] at h
    exact absurd h (by simp)
  have hlast := List.rdropWhile_last_not Char.isWhitespace (l.dropWhile Char.isWhitespace) hne
  rw [List.getLast?_eq_getLast _ hne] at h
  injection h with h
  rw [← h]
  simpa using hlast

theorem check_ui_label (o : HttpOutcome) : (check_ui_reachable o).label = "UI reachable" := by
  cases o <;> rfl

theorem check_otlp_http_label (o : HttpOutcome) :
    (check_otlp_http_reachable o).label = "OTLP/HTTP endpoint" := by
  cases o <;> rfl

theorem check_otlp_grpc_label (o : HttpOutcome) :
    (check_otlp_grpc_reachable o).label = "OTLP/gRPC endpoint (HTTP/2 :443)" := by
  cases o <;> rfl

theorem check_sdk_label (o : SdkOutcome) :
    (check_sdk_export o).label = "lmnr SDK trace export" := by
  cases o <;> rfl

theorem export_run_label (label : String) (o : ExportStep) :
    (_export_and_check label o).result.label = label := by
  cases o <;> rfl

theorem grpc_export_label (c : ExporterConstruction) (o : ExportStep) (e : ExportRun)
    (h : check_grpc_export c o = Except.ok e) :
    e.result.label = "OTLP/gRPC trace export" := by
  cases c with
  | exn m => exact absurd h (by simp [check_grpc_export])
  | ok =>
    simp only [check_grpc_export, Except.ok.injEq] at h
    rw [← h]
    exact export_run_label _ _

theorem http_export_label (c : ExporterConstruction) (o : ExportStep) (e : ExportRun)
    (h : check_http_export c o = Except.ok e) :
    e.result.label = "OTLP/HTTP trace export" := by
  cases c with
  | exn m => exact absurd h (by simp [check_http_export])
  | ok =>
    simp only [check_http_export, Except.ok.injEq] at h
    rw [← h]
    exact export_run_label _ _

/-- C3 counterexample: with `LAMINAR_BASE_URL` set to the empty string,
`BASE_URL` is the empty string, not the hardcoded production default —
`os.environ.get` only falls back when the variable is absent. -/
theorem C3_counterexample :
    envC3 "LAMINAR_BASE_URL" = some "" ∧
    BASE_URL envC3 ≠ "https://laminar.orbitronai.com" := by
  constructor
  · rfl
  · decide

/-- C3 (amended): each of the three resolved endpoint URLs equals its
hardcoded production default exactly when the corresponding environment
variable is absent; whenever the variable is present — including when its
value is the empty string — the URL equals the variable's value. -/
theorem C3_url_defaults (env : String → Option String) :
    (env "LAMINAR_BASE_URL" = none → BASE_URL env = "https://laminar.orbitronai.com") ∧
    (∀ v, env "LAMINAR_BASE_URL" = some v → BASE_URL env = v) ∧
    (env "LAMINAR_OTLP_GRPC_URL" = none →
      OTLP_GRPC_URL env = "https://otlp-grpc.laminar.orbitronai.com:443") ∧
    (∀ v, env "LAMINAR_OTLP_GRPC_URL" = some v → OTLP_GRPC_URL env = v) ∧
    (env "LAMINAR_OTLP_HTTP_URL" = none →
      OTLP_HTTP_URL env = "https://otlp-http.laminar.orbitronai.com") ∧
    (∀ v, env "LAMINAR_OTLP_HTTP_URL" = some v → OTLP_HTTP_URL env = v) := by
  refine ⟨fun h => ?_, fun v h => ?_, fun h => ?_, fun v h => ?_, fun h => ?_, fun v h => ?_⟩ <;>
    simp [BASE_URL, OTLP_GRPC_URL, OTLP_HTTP_URL, environGet, h]

/-- C3 witness: the amended theorem applied to a fully unset environment and
to a fully set one. -/
theorem C3_url_defaults_witness :
    BASE_URL envAllUnset = "https://laminar.orbitronai.com" ∧
    OTLP_GRPC_URL envAllUnset = "https://otlp-grpc.laminar.orbitronai.com:443" ∧
    OTLP_HTTP_URL envAllUnset = "https://otlp-http.laminar.orbitronai.com" ∧
    BASE_URL envAllSet = "https://example.test" ∧
    OTLP_GRPC_URL envAllSet = "https://example.test" ∧
    OTLP_HTTP_URL envAllSet = "https://example.test" :=
  ⟨(C3_url_defaults envAllUnset).1 rfl,
   (C3_url_defaults envAllUnset).2.2.1 rfl,
   (C3_url_defaults envAllUnset).2.2.2.2.1 rfl,
   (C3_url_defaults envAllSet).2.1 _ rfl,
   (C3_url_defaults envAllSet).2.2.2.1 _ rfl,
   (C3_url_defaults envAllSet).2.2.2.2.2 _ rfl⟩

/-- C4 counterexample: in the SDK export probe a flush that reports `false`
still yields `passed = true` — `check_sdk_export` never consults the flush's
result, so the claimed flush-flag mapping fails for the SDK transport. -/
theorem C4_counterexample :
    ¬ ((check_sdk_export (SdkOutcome.flushed false)).passed = false) := by
  decide

/-- C4 (amended): for the remote-call (gRPC) and hypertext (HTTP) direct
transports, `passed` is `true` exactly when `force_flush` returned `true`
(`false` on a failed flush or on an exception); for the SDK transport,
`passed` is `true` exactly when no exception occurred — the SDK flush's
success value is discarded. -/
theorem C4_flush_mapping (o o2 : ExportStep) (s : SdkOutcome) :
    (check_grpc_export ExporterConstruction.ok o
      = Except.ok (_export_and_check "OTLP/gRPC trace export" o)) ∧
    (check_http_export ExporterConstruction.ok o2
      = Except.ok (_export_and_check "OTLP/HTTP trace export" o2)) ∧
    ((_export_and_check "OTLP/gRPC trace export" o).result.passed = true ↔
      o = ExportStep.flushed true) ∧
    ((_export_and_check "OTLP/HTTP trace export" o2).result.passed = true ↔
      o2 = ExportStep.flushed true) ∧
    ((check_sdk_export s).passed = true ↔ ∃ f, s = SdkOutcome.flushed f) := by
  refine ⟨rfl, rfl, ?_, ?_, ?_⟩
  · cases o <;> simp [_export_and_check, _check]
  · cases o2 <;> simp [_export_and_check, _check]
  · cases s <;> simp [check_sdk_export, _check]

/-- C5 counterexample: an exception raised while constructing the gRPC
exporter happens outside `_export_and_check`'s `try`, so the probe
propagates it to the caller instead of recording a failed `CheckResult`. -/
theorem C5_counterexample :
    check_grpc_export (ExporterConstruction.exn "exporter construction failed")
        (ExportStep.flushed true)
      = Except.error "exporter construction failed" := rfl

/-- C5 (amended): exceptions raised during pipeline construction, span
creation, or flush are caught inside `_export_and_check` and become a failed
`CheckResult` carrying the exception text; but an exception raised while
constructing the exporter itself, in the remote-call or hypertext probe,
occurs before the guarded region and propagates to the aggregator. -/
theorem C5_exception_policy (m : String) (o : ExportStep) :
    ((_export_and_check "OTLP/gRPC trace export" (ExportStep.setupExn m)).result
      = ⟨"OTLP/gRPC trace export", false, m⟩) ∧
    ((_export_and_check "OTLP/gRPC trace export" (ExportStep.spanOrFlushExn m)).result
      = ⟨"OTLP/gRPC trace export", false, m⟩) ∧
    ((_export_and_check "OTLP/HTTP trace export" (ExportStep.setupExn m)).result
      = ⟨"OTLP/HTTP trace export", false, m⟩) ∧
    ((_export_and_check "OTLP/HTTP trace export" (ExportStep.spanOrFlushExn m)).result
      = ⟨"OTLP/HTTP trace export", false, m⟩) ∧
    (check_grpc_export (ExporterConstruction.exn m) o = Except.error m) ∧
    (check_http_export (ExporterConstruction.exn m) o = Except.error m) :=
  ⟨rfl, rfl, rfl, rfl, rfl, rfl⟩

/-- C6 counterexample: when span creation or flush raises, the pipeline was
constructed but `provider.shutdown()` is never invoked — `shutdown` follows
`force_flush` with no `finally`. -/
theorem C6_counterexample :
    (_export_and_check "OTLP/gRPC trace export"
        (ExportStep.spanOrFlushExn "flush raised")).pipelineConstructed = true ∧
    (_export_and_check "OTLP/gRPC trace export"
        (ExportStep.spanOrFlushExn "flush raised")).shutdownInvoked = false := by
  decide

/-- C6 (amended): `provider.shutdown()` is invoked exactly on the exit paths
where `force_flush` returns (successfully or not); on the exception paths —
including an exception during span creation or flush with the pipeline
already constructed — it is not invoked. -/
theorem C6_shutdown_paths (label : String) (o : ExportStep) :
    ((_export_and_check label o).shutdownInvoked = true ↔ ∃ f, o = ExportStep.flushed f) ∧
    ((_export_and_check label o).pipelineConstructed = false ↔ ∃ m, o = ExportStep.setupExn m) := by
  cases o <;> simp [_export_and_check, _check]

/-- C7: the UI reachability check passes exactly when the final
(post-redirect) status is 200; a 404 fails with detail `HTTP 404` (which
contains the status code), and a connection error fails with the exception's
text as the detail. -/
theorem C7_ui_reachable (c : Nat) (e : String) :
    ((check_ui_reachable (HttpOutcome.resp c)).passed = true ↔ c = 200) ∧
    ((check_ui_reachable (HttpOutcome.resp 404)).passed = false ∧
      (check_ui_reachable (HttpOutcome.resp 404)).detail = "HTTP 404") ∧
    ((check_ui_reachable (HttpOutcome.exn e)).passed = false ∧
      (check_ui_reachable (HttpOutcome.exn e)).detail = e) := by
  refine ⟨?_, ⟨by decide, by decide⟩, rfl, rfl⟩
  simp [check_ui_reachable, _check]

/-- C8: the hypertext-ingestion reachability check passes exactly when the
status is one of 200, 400, 401, 415; a 500 response fails, and a timeout (or
any other) exception fails. -/
theorem C8_otlp_http_reachable (c : Nat) (e : String) :
    ((check_otlp_http_reachable (HttpOutcome.resp c)).passed = true ↔
      (c = 200 ∨ c = 400 ∨ c = 401 ∨ c = 415)) ∧
    (check_otlp_http_reachable (HttpOutcome.resp 500)).passed = false ∧
    (check_otlp_http_reachable (HttpOutcome.exn e)).passed = false := by
  refine ⟨?_, by decide, rfl⟩
  simp [check_otlp_http_reachable, _check, List.contains_cons]

/-- C1: in every run whose credential resolves, the exit status is 0 exactly
when all six check results exist and passed, and it is 1 whenever the six
results exist and at least one failed. -/
theorem C1_exit_code (w : World) (h : (main w).credentialResolved = true) :
    ((main w).exitCode = 0 ↔
      ((main w).results.length = 6 ∧ (main w).results.all (fun r => r.passed) = true)) ∧
    (((main w).results.length = 6 ∧ (main w).results.all (fun r => r.passed) = false) →
      (main w).exitCode = 1) := by
  cases hk : get_api_key w.env with
  | exitOne m => simp [main, hk] at h
  | ok k =>
    cases hg : check_grpc_export w.grpcCons w.grpcStep with
    | error m => simp [main, hk, hg]
    | ok e5 =>
      cases hh : check_http_export w.httpCons w.httpStep with
      | error m => simp [main, hk, hg, hh]
      | ok e6 =>
        simp only [main, hk, hg, hh]
        split_ifs with hb
        · simp [hb]
        · simp only [Bool.not_eq_true] at hb
          simp [hb]

/-- C1 witness: the exit-code equivalence evaluated on a fully healthy world. -/
theorem C1_exit_code_witness :
    ((main wC1).exitCode = 0 ↔
      ((main wC1).results.length = 6 ∧ (main wC1).results.all (fun r => r.passed) = true)) ∧
    (((main wC1).results.length = 6 ∧ (main wC1).results.all (fun r => r.passed) = false) →
      (main wC1).exitCode = 1) :=
  C1_exit_code wC1 (by decide)

/-- C2: if the credential variable is unset, empty, or whitespace-only
(equivalently, its value strips to the empty string), `get_api_key` exits
with status 1 printing the remediation message to stderr, and the run records
no check result — no probe runs, so no network call is attempted; if the
stripped value is non-empty, resolution returns it and the run continues. -/
theorem C2_credential_gate (w : World) :
    (pyStrip ((w.env "LAMINAR_API_KEY").getD "") = "" →
      get_api_key w.env = KeyResult.exitOne remediationMsg ∧
      (main w).exitCode = 1 ∧ (main w).results = [] ∧
      (main w).remediationPrinted = some remediationMsg ∧
      (main w).uncaught = none ∧ (main w).credentialResolved = false) ∧
    (pyStrip ((w.env "LAMINAR_API_KEY").getD "") ≠ "" →
      get_api_key w.env = KeyResult.ok (pyStrip ((w.env "LAMINAR_API_KEY").getD "")) ∧
      (main w).credentialResolved = true ∧ (main w).remediationPrinted = none) := by
  constructor
  · intro h
    have hk : get_api_key w.env = KeyResult.exitOne remediationMsg := by
      simp [get_api_key, environGet, h]
    exact ⟨hk, by simp [main, hk], by simp [main, hk], by simp [main, hk],
      by simp [main, hk], by simp [main, hk]⟩
  · intro h
    have hk : get_api_key w.env = KeyResult.ok (pyStrip ((w.env "LAMINAR_API_KEY").getD "")) := by
      simp [get_api_key, environGet, h]
    refine ⟨hk, ?_, ?_⟩ <;>
      cases hg : check_grpc_export w.grpcCons w.grpcStep <;>
        cases hh : check_http_export w.httpCons w.httpStep <;>
          simp [main, hk, hg, hh]

/-- C2 witness: the gate evaluated on a world whose key is whitespace-only. -/
theorem C2_credential_gate_witness :
    get_api_key wC2.env = KeyResult.exitOne remediationMsg ∧
    (main wC2).exitCode = 1 ∧ (main wC2).results = [] ∧
    (main wC2).remediationPrinted = some remediationMsg ∧
    (main wC2).uncaught = none ∧ (main wC2).credentialResolved = false :=
  (C2_credential_gate wC2).1 (by decide)

/-- C9 counterexample: with the credential resolved but the gRPC exporter's
constructor raising, the run aborts after four results — the two remaining
export checks are skipped, so it is not the case that six results are always
produced. -/
theorem C9_counterexample :
    (main wC9).credentialResolved = true ∧ (main wC9).results.length = 4 := by
  constructor
  · decide
  · decide

/-- C9 (amended): in every run that passes credential resolution and in which
no exception escapes an exporter constructor (the only uncaught path),
exactly one result per check is produced — six in total, with the fixed
labels in the fixed order UI, hypertext ingestion, remote-call ingestion,
SDK export, remote-call direct export, hypertext direct export. -/
theorem C9_fixed_order (w : World) (h1 : (main w).credentialResolved = true)
    (h2 : (main w).uncaught = none) :
    (main w).results.map (fun r => r.label) =
      ["UI reachable", "OTLP/HTTP endpoint", "OTLP/gRPC endpoint (HTTP/2 :443)",
       "lmnr SDK trace export", "OTLP/gRPC trace export", "OTLP/HTTP trace export"] := by
  cases hk : get_api_key w.env with
  | exitOne m => simp [main, hk] at h1
  | ok k =>
    cases hg : check_grpc_export w.grpcCons w.grpcStep with
    | error m => simp [main, hk, hg] at h2
    | ok e5 =>
      cases hh : check_http_export w.httpCons w.httpStep with
      | error m => simp [main, hk, hg, hh] at h2
      | ok e6 =>
        simp [main, hk, hg, hh, check_ui_label, check_otlp_http_label,
          check_otlp_grpc_label, check_sdk_label,
          grpc_export_label _ _ _ hg, http_export_label _ _ _ hh]

/-- C9 witness: the fixed order observed on a fully healthy world. -/
theorem C9_fixed_order_witness :
    (main wC9b).results.map (fun r => r.label) =
      ["UI reachable", "OTLP/HTTP endpoint", "OTLP/gRPC endpoint (HTTP/2 :443)",
       "lmnr SDK trace export", "OTLP/gRPC trace export", "OTLP/HTTP trace export"] :=
  C9_fixed_order wC9b (by decide) (by decide)

/-- C10: a successfully resolved credential is exactly the environment value
with surrounding whitespace stripped: it is non-empty and neither starts nor
ends with a whitespace character. -/
theorem C10_key_trimmed (env : String → Option String) (k : String)
    (h : get_api_key env = KeyResult.ok k) :
    k = pyStrip ((env "LAMINAR_API_KEY").getD "") ∧ k ≠ "" ∧
    leadingWS k = false ∧ trailingWS k = false := by
  by_cases hz : pyStrip ((env "LAMINAR_API_KEY").getD "") = ""
  · simp [get_api_key, environGet, hz] at h
  · simp only [get_api_key, environGet, if_neg hz, KeyResult.ok.injEq] at h
    subst h
    refine ⟨rfl, hz, ?_, ?_⟩
    · unfold leadingWS
      cases hh : (pyStrip ((env "LAMINAR_API_KEY").getD "")).data.head? with
      | none => rfl
      | some c =>
        have := head?_pyStripList ((env "LAMINAR_API_KEY").getD "").data c hh
        simp [this]
    · unfold trailingWS
      cases hh : (pyStrip ((env "LAMINAR_API_KEY").getD "")).data.getLast? with
      | none => rfl
      | some c =>
        have := getLast?_pyStripList ((env "LAMINAR_API_KEY").getD "").data c hh
        simp [this]

/-- C10 witness: a key set with padding whitespace resolves to its trimmed,
non-empty core. -/
theorem C10_key_trimmed_witness :
    "sk-abc" = pyStrip ((envC10 "LAMINAR_API_KEY").getD "") ∧ "sk-abc" ≠ "" ∧
    leadingWS "sk-abc" = false ∧ trailingWS "sk-abc" = false :=
  C10_key_trimmed envC10 "sk-abc" (by decide)

end Examples
